import Mathlib

/-!
Verification of the realtime reconciliation engine of the sl-live repository.

The definitions below are a shallow embedding of the TypeScript source:

* `SLService.getLiveVehicles` (slService, realtime resolver) — decoded
  feed entities are fused with the static trip map, the route-direction
  headsign table and the stop-name map into `SLVehicle` records;
* the ingest endpoint (`api/ingest`) and the history read endpoint
  (`api/history`) — a Mongo-style upsert/append store keyed by trip id;
* `SLService.searchLines` — capped case-insensitive scan over the
  line manifest held in an IndexedDB index ordered by line name;
* the `App.fetchLive` poll tick.

JavaScript truthiness on optional strings (absent or `""` count as false)
is modelled by `truthy`/`getTruthy`/`jsOrStr`; numbers use `ℚ`, the
`x || 0` idiom becomes `jsNumOr`.
-/

/-- Truthiness of an optional JS string: absent and `""` are falsy. -/
def truthy : Option String → Bool
  | none => false
  | some s => s ≠ ""

/-- `a || b` for optional strings under JS truthiness. -/
def jsOrStr (a b : Option String) : Option String :=
  if truthy a then a else b

/-- Collapse a falsy string value to `none` (the result of `a || undefined`,
or of guarding a value with `if (x)` before use). -/
def getTruthy (a : Option String) : Option String :=
  if truthy a then a else none

/-- `x || d` for an optional JS number (`0` is falsy). -/
def jsNumOr (a : Option ℚ) (d : ℚ) : ℚ :=
  match a with
  | none => d
  | some x => if x = 0 then d else x

/-! ### Decoded GTFS-RT records (proto schema in slService `getRTRoot`) -/

/-- `TripDescriptor { trip_id, route_id, direction_id }`. -/
structure TripDescriptor where
  tripId : Option String
  routeId : Option String
  directionId : Option Nat
deriving DecidableEq

/-- `VehicleDescriptor { id, label }`. -/
structure VehicleDescriptor where
  id : Option String
  label : Option String
deriving DecidableEq

/-- `Position { latitude, longitude, bearing, speed }`. -/
structure Position where
  latitude : ℚ
  longitude : ℚ
  bearing : Option ℚ
  speed : Option ℚ
deriving DecidableEq

/-- `VehiclePosition { trip, vehicle, position }`. -/
structure VehiclePosition where
  trip : Option TripDescriptor
  vehicle : Option VehicleDescriptor
  position : Option Position
deriving DecidableEq

/-- `StopTimeEvent { delay }` (time and uncertainty are never read). -/
structure StopTimeEvent where
  delay : Option Int
deriving DecidableEq

/-- `StopTimeUpdate { stop_id, arrival, departure }`. -/
structure StopTimeUpdate where
  stopId : Option String
  arrival : Option StopTimeEvent
  departure : Option StopTimeEvent
deriving DecidableEq

/-- `TripUpdate { trip, stop_time_update }`. -/
structure TripUpdate where
  trip : Option TripDescriptor
  stopTimeUpdate : List StopTimeUpdate
deriving DecidableEq

/-- `FeedEntity { id, trip_update, vehicle }`. -/
structure FeedEntity where
  id : String
  vehicle : Option VehiclePosition
  tripUpdate : Option TripUpdate
deriving DecidableEq

/-! ### Static catalog state held by `SLService` -/

/-- Trip-map entry `{ r: route_id, h: headsign }` from trip-to-route.json. -/
structure TripMapEntry where
  r : String
  h : String
deriving DecidableEq

/-- The lookup state of `SLService`: `tripToRouteMap`, `routeDirections`
(route id → direction id string → headsign) and `stopsMap` (stop id →
stop name).  The two JSON maps are `null` until loaded, hence `Option`;
object/map lookups become association-list lookups. -/
structure CatalogState where
  tripToRouteMap : Option (List (String × TripMapEntry))
  routeDirections : Option (List (String × List (String × String)))
  stopsMap : List (String × String)

/-- Per-trip join record built from the trip-updates feed
(`TripUpdateInfo` in slService). -/
structure TripUpdateInfo where
  delay : Option Int
  directionId : Option Nat
  routeId : Option String
  lastStopId : Option String
deriving DecidableEq

/-- Resolver output record (`SLVehicle`). -/
structure SLVehicle where
  id : String
  line : String
  tripId : String
  operator : String
  vehicleNumber : String
  lat : ℚ
  lng : ℚ
  bearing : ℚ
  speed : ℚ
  destination : String
  type : String
  delay : Option Int
deriving DecidableEq

/-! ### Building the trip-update join map (slService lines 383–421) -/

/-- Delay of one stop-time update: arrival delay if the arrival event is
present and carries a delay, else the departure delay if present. -/
def stopTimeDelay (u : StopTimeUpdate) : Option Int :=
  match u.arrival.bind StopTimeEvent.delay with
  | some d => some d
  | none => u.departure.bind StopTimeEvent.delay

/-- `lastStopId` extracted from the final stop-time update of the list
(`updates[updates.length - 1].stopId || ...stop_id`). -/
def lastStopIdOf (updates : List StopTimeUpdate) : Option String :=
  match updates.getLast? with
  | some lastUpdate => getTruthy lastUpdate.stopId
  | none => none

/-- The `(tripId, info)` pair stored for one trip-update entity, when its
trip descriptor carries a truthy trip id. -/
def tripUpdateInfo (tu : TripUpdate) : Option (String × TripUpdateInfo) :=
  match tu.trip with
  | none => none
  | some trip =>
    match getTruthy trip.tripId with
    | none => none
    | some tripId =>
      let delay := match tu.stopTimeUpdate with
        | [] => none
        | firstUpdate :: _ => stopTimeDelay firstUpdate
      some (tripId,
        { delay := delay
          directionId := trip.directionId
          routeId := getTruthy trip.routeId
          lastStopId := lastStopIdOf tu.stopTimeUpdate })

/-- `Map.set`: replace the value at an existing key, else append. -/
def mapSet (m : List (String × TripUpdateInfo)) (k : String)
    (v : TripUpdateInfo) : List (String × TripUpdateInfo) :=
  if m.any (fun p => p.1 = k) then
    m.map (fun p => if p.1 = k then (k, v) else p)
  else
    m ++ [(k, v)]

/-- `tripInfoMap` built by folding the trip-update feed entities. -/
def buildTripInfoMap (entities : List FeedEntity) :
    List (String × TripUpdateInfo) :=
  entities.foldl (fun m e =>
    match e.tripUpdate with
    | none => m
    | some tu =>
      match tripUpdateInfo tu with
      | none => m
      | some p => mapSet m p.1 p.2) []

/-! ### Per-entity resolution (slService lines 424–479) -/

/-- Route id after the fallback chain: positions own trip descriptor,
then the joined trip-update info, then the static trip-map entry.  The
result may still be a falsy string (an empty `mapEntry.r`); the final
`if (!routeId) continue` guard applies `getTruthy` at the use site. -/
def resolvedRouteId (st : CatalogState) (info : Option TripUpdateInfo)
    (trip : TripDescriptor) (tripId : String) : Option String :=
  let routeId := getTruthy trip.routeId
  let routeId := match info with
    | some i => jsOrStr routeId i.routeId
    | none => routeId
  match st.tripToRouteMap.bind (fun m => m.lookup tripId) with
  | some mapEntry => jsOrStr routeId (some mapEntry.r)
  | none => routeId

/-- Direction id: the position's own value, else the trip-update's. -/
def resolvedDirectionId (info : Option TripUpdateInfo)
    (trip : TripDescriptor) : Option Nat :=
  match trip.directionId with
  | some d => some d
  | none =>
    match info with
    | some i => i.directionId
    | none => none

/-- The route-direction headsign table lookup, guarded exactly as in the
code: it requires a truthy resolved route id, a present direction id and
a loaded table, and keys the table by the route id and the decimal
string of the direction id. -/
def dirFallbackLookup (routeId : Option String) (directionId : Option Nat)
    (rds : Option (List (String × List (String × String)))) : Option String :=
  match getTruthy routeId, directionId, rds with
  | some r, some d, some rd =>
    (rd.lookup r).bind (fun dirs => dirs.lookup (toString d))
  | _, _, _ => none

/-- Headsign resolution (slService lines 440–461): start from the
placeholder, then trip-map headsign, then the route-direction table keyed
by the resolved route and direction, then the stop name of the joined
trip-update's last stop-time update. -/
def resolvedHeadsign (st : CatalogState) (info : Option TripUpdateInfo)
    (tripId : String) (routeId : Option String) (directionId : Option Nat) :
    String :=
  let headsign := "Okänd"
  let headsign := match st.tripToRouteMap.bind (fun m => m.lookup tripId) with
    | some mapEntry => if mapEntry.h ≠ "" then mapEntry.h else headsign
    | none => headsign
  let fallbackHeadsign : Option String :=
    dirFallbackLookup routeId directionId st.routeDirections
  let headsign :=
    if headsign = "" ∨ headsign = "Okänd" then
      match fallbackHeadsign with
      | some fh => if fh ≠ "" then fh else headsign
      | none => headsign
    else headsign
  let lastStopName : Option String :=
    (info.bind (fun i => getTruthy i.lastStopId)).bind
      (fun lastStopId => st.stopsMap.lookup lastStopId)
  let headsign :=
    if headsign = "" ∨ headsign = "Okänd" then
      match lastStopName with
      | some stopName => if stopName ≠ "" then stopName else headsign
      | none => headsign
    else headsign
  headsign

/-- The record pushed onto `allVehicles` (slService lines 465–478). -/
def mkLiveVehicle (info : Option TripUpdateInfo) (e : FeedEntity)
    (v : VehiclePosition) (position : Position)
    (tripId line headsign : String) : SLVehicle :=
  { id := match getTruthy (v.vehicle.bind VehicleDescriptor.id) with
          | some s => s
          | none => e.id
    line := line
    tripId := tripId
    operator := "SL / Entreprenör"
    vehicleNumber := match getTruthy (v.vehicle.bind VehicleDescriptor.label) with
          | some s => s
          | none => "N/A"
    lat := position.latitude
    lng := position.longitude
    bearing := jsNumOr position.bearing 0
    speed := jsNumOr position.speed 0 * (3.6 : ℚ)
    destination := headsign
    type := "Buss"
    delay := info.bind TripUpdateInfo.delay }

/-- One iteration of the position-entity loop: drop the entity unless it
carries a vehicle record with position and trip descriptor and a truthy
trip id, resolve route/direction/headsign, and drop it when no route id
could be determined. -/
def resolveEntity (st : CatalogState)
    (tripInfoMap : List (String × TripUpdateInfo)) (e : FeedEntity) :
    Option SLVehicle :=
  match e.vehicle with
  | none => none
  | some v =>
    match v.position, v.trip with
    | some position, some trip =>
      match getTruthy trip.tripId with
      | none => none
      | some tripId =>
        let info := tripInfoMap.lookup tripId
        let directionId := resolvedDirectionId info trip
        let routeId := resolvedRouteId st info trip tripId
        let headsign := resolvedHeadsign st info tripId routeId directionId
        match getTruthy routeId with
        | none => none
        | some line => some (mkLiveVehicle info e v position tripId line headsign)
    | _, _ => none

/-! ### Active-route filtering and the full resolve pipeline -/

/-- Active line route (from `lines/<routeId>.json`). -/
structure SLLineRoute where
  id : String
  line : String
  trip_ids : List String
  path : List (ℚ × ℚ)
deriving DecidableEq

/-- Route filter (slService lines 481–492): keep vehicles whose trip id
is in the route's trip-id set; when that is empty while vehicles exist,
fall back to matching on `line == route.id`. -/
def filterByRoute (allVehicles : List SLVehicle) (route : SLLineRoute) :
    List SLVehicle :=
  let filteredVehicles := allVehicles.filter
    (fun v => route.trip_ids.contains v.tripId)
  if filteredVehicles.length = 0 ∧ allVehicles.length > 0 then
    allVehicles.filter (fun v => v.line == route.id)
  else filteredVehicles

/-- The resolve pipeline of `getLiveVehicles` after a successful decode:
build the join map when the trip-update fetch succeeded, resolve every
position entity, then apply the optional route filter. -/
def getLiveVehiclesResolved (st : CatalogState)
    (posEntities : List FeedEntity) (updates : Option (List FeedEntity))
    (route : Option SLLineRoute) : List SLVehicle :=
  let tripInfoMap := match updates with
    | some es => buildTripInfoMap es
    | none => []
  let allVehicles := posEntities.filterMap (resolveEntity st tripInfoMap)
  match route with
  | none => allVehicles
  | some r => filterByRoute allVehicles r

/-! ### Fetch/decode outcomes and the poll tick -/

/-- Outcome of the position fetch+decode: the fetch can reject, return a
non-ok HTTP status (which `getLiveVehicles` turns into a thrown error),
or deliver a byte buffer whose protobuf decode succeeds or throws. -/
inductive FetchPos where
  | fetchFailed : FetchPos
  | httpError (status : Nat) : FetchPos
  | bytes (byteLength : Nat) (decoded : Except Unit (List FeedEntity)) : FetchPos

/-- The body of the `try` block in `getLiveVehicles`: propagate fetch and
decode failures as errors, return `[]` for a near-empty buffer, otherwise
resolve. -/
def getLiveVehiclesAttempt (st : CatalogState) (pos : FetchPos)
    (updates : Option (List FeedEntity)) (route : Option SLLineRoute) :
    Except Unit (List SLVehicle) :=
  match pos with
  | .fetchFailed => .error ()
  | .httpError _ => .error ()
  | .bytes byteLength decoded =>
    if byteLength < 20 then .ok []
    else
      match decoded with
      | .error _ => .error ()
      | .ok posEntities => .ok (getLiveVehiclesResolved st posEntities updates route)

/-- `getLiveVehicles` as seen by callers: the surrounding
`catch { return [] }` swallows every failure of the attempt. -/
def getLiveVehicles (st : CatalogState) (pos : FetchPos)
    (updates : Option (List FeedEntity)) (route : Option SLLineRoute) :
    List SLVehicle :=
  match getLiveVehiclesAttempt st pos updates route with
  | .ok vs => vs
  | .error _ => []

/-- Live status flag of the App component. -/
inductive LiveStatus where
  | loading : LiveStatus
  | ok : LiveStatus
  | error : LiveStatus
deriving DecidableEq

/-- One `fetchLive` poll tick of the App component: `getLiveVehicles`
never throws on a fetch/decode failure (its own catch returns `[]`), so
the tick always runs `setVehicles(data)` followed by
`setLiveStatus('ok')`; the previous vehicle set and status are
overwritten unconditionally. -/
def fetchLiveTick (st : CatalogState) (pos : FetchPos)
    (updates : Option (List FeedEntity)) (prevVehicles : List SLVehicle)
    (prevStatus : LiveStatus) : List SLVehicle × LiveStatus :=
  let data := getLiveVehicles st pos updates none
  (data, LiveStatus.ok)

/-! ### History store (api/ingest handler and api/history handler) -/

/-- One trail point `{lat, lng, ts}` as pushed by the ingest handler. -/
structure TrailPoint where
  lat : ℚ
  lng : ℚ
  ts : Int
deriving DecidableEq

/-- One `vehicle_trails` document, keyed by trip id. -/
structure TrailDoc where
  tripId : String
  line : String
  vehicleId : String
  lastUpdate : Int
  expireAt : Int
  trail : List TrailPoint
deriving DecidableEq

/-- A vehicle record as posted to the ingest endpoint.  `tripId` is
optional because the handler filters out entries without one. -/
structure IngestVehicle where
  tripId : Option String
  line : String
  id : String
  lat : ℚ
  lng : ℚ
deriving DecidableEq

/-- The four-hour expiry window (`4 * 60 * 60 * 1000` ms). -/
def expireWindowMs : Int := 4 * 60 * 60 * 1000

/-- One `updateOne ... upsert: true` operation: update every document
matching the trip id (set metadata, push the point onto the trail), or
insert a fresh document when none matches. -/
def upsertOne (now expireAt : Int) (docs : List TrailDoc) (tripId : String)
    (v : IngestVehicle) : List TrailDoc :=
  if docs.any (fun d => d.tripId = tripId) then
    docs.map (fun d =>
      if d.tripId = tripId then
        { d with line := v.line, vehicleId := v.id, expireAt := expireAt,
                 lastUpdate := now,
                 trail := d.trail ++ [⟨v.lat, v.lng, now⟩] }
      else d)
  else
    docs ++ [⟨tripId, v.line, v.id, now, expireAt, [⟨v.lat, v.lng, now⟩]⟩]

/-- The ingest handler's bulk write: filter to vehicles with a truthy
string trip id, then apply the upserts in order. -/
def ingestVehicles (docs : List TrailDoc) (now : Int)
    (vehicles : List IngestVehicle) : List TrailDoc :=
  let expireAt := now + expireWindowMs
  (vehicles.filter (fun v => truthy v.tripId)).foldl
    (fun ds v =>
      match v.tripId with
      | some t => upsertOne now expireAt ds t v
      | none => ds) docs

/-- A sequence of ingest batches applied to a store. -/
def applyIngests (docs : List TrailDoc)
    (batches : List (Int × List IngestVehicle)) : List TrailDoc :=
  batches.foldl (fun ds b => ingestVehicles ds b.1 b.2) docs

/-- The trail sort of the history handler:
`trail.sort((a, b) => a.ts - b.ts)`. -/
def sortTrail (trail : List TrailPoint) : List TrailPoint :=
  List.insertionSort (fun a b => a.ts ≤ b.ts) trail

/-- HTTP response of the history endpoint: a status code and the
returned point list. -/
structure HistoryResponse where
  status : Nat
  path : List TrailPoint
deriving DecidableEq

/-- The history read handler: 400 without a (truthy string) tripId
query parameter; 200 with an empty path when the database access throws
or no document matches; otherwise 200 with the trail sorted by
timestamp. -/
def historyHandler (dbResult : Except Unit (List TrailDoc))
    (tripId : Option String) : HistoryResponse :=
  match getTruthy tripId with
  | none => ⟨400, []⟩
  | some t =>
    match dbResult with
    | .error _ => ⟨200, []⟩
    | .ok docs =>
      match docs.find? (fun d => d.tripId = t) with
      | none => ⟨200, []⟩
      | some trip => ⟨200, sortTrail trip.trail⟩

/-- The client-side `getVehicleHistory`: a fetch rejection or a non-ok
status yields `[]`, otherwise the body's path. -/
def getVehicleHistory (res : Except Unit HistoryResponse) :
    List TrailPoint :=
  match res with
  | .error _ => []
  | .ok r => if 200 ≤ r.status ∧ r.status < 300 then r.path else []

/-! ### Line search (slService `searchLines`) -/

/-- Manifest entry for one published route. -/
structure LineManifestEntry where
  id : String
  line : String
  description : String
  from_ : String
  to_ : String
deriving DecidableEq

/-- A search result entry. -/
structure SearchResult where
  type : String
  id : String
  title : String
  subtitle : String
deriving DecidableEq

/-- Lowercasing as used by `toLowerCase()` (ASCII letters). -/
def toLowerStr (s : String) : String := ⟨s.data.map Char.toLower⟩

/-- `a.startsWith(b)` on JS strings. -/
def jsStartsWith (s p : String) : Bool := p.data.isPrefixOf s.data

/-- Lexicographic code-unit comparison on character lists. -/
def charsLe : List Char → List Char → Bool
  | [], _ => true
  | _ :: _, [] => false
  | c :: cs, d :: ds =>
    if c.toNat < d.toNat then true
    else if d.toNat < c.toNat then false
    else charsLe cs ds

/-- Code-unit comparison backing the IndexedDB key order on the
`line` index. -/
def strLeB (a b : String) : Bool := charsLe a.data b.data

/-- The cursor scan order of `store.index('line').openCursor()`:
manifest entries in ascending order of their `line` key. -/
def lineIndexScan (routes : List LineManifestEntry) :
    List LineManifestEntry :=
  List.insertionSort (fun a b => strLeB a.line b.line = true) routes

/-- The result record pushed for a matching route. -/
def mkLineResult (route : LineManifestEntry) : SearchResult :=
  ⟨"line", route.id, "Linje " ++ route.line,
    route.from_ ++ " - " ++ route.to_⟩

/-- The cursor loop body of `searchLines`: push a result when the
lowercased line name starts with the query, continue while fewer than
10 results have been collected. -/
def searchLinesLoop (query : String) :
    List LineManifestEntry → List SearchResult → List SearchResult
  | [], results => results
  | route :: rest, results =>
    let results :=
      if jsStartsWith (toLowerStr route.line) query then
        results ++ [mkLineResult route]
      else results
    if results.length < 10 then searchLinesLoop query rest results
    else results

/-- `searchLines` over the routes object store; the caller (`search`)
passes the query already lowercased. -/
def searchLines (routes : List LineManifestEntry) (query : String) :
    List SearchResult :=
  searchLinesLoop query (lineIndexScan routes) []

/-! ### Basic facts about the truthiness helpers -/

/-! ### Property formalizations, concrete scenario inputs and instances -/

/-- A catalog with no static data loaded, for concrete scenarios. -/
def emptyCatalog : CatalogState := ⟨none, none, []⟩

/-- A previously displayed vehicle, for the poll-tick scenarios. -/
def prevVehicle : SLVehicle :=
  ⟨"veh-1", "9011001001200000", "trip-1", "SL / Entreprenör", "4711",
    59, 18, 0, 0, "Sollentuna", "Buss", none⟩

/-- Manifest entry with line short name 40. -/
def exEntry40 : LineManifestEntry := ⟨"r40", "40", "buss", "A", "B"⟩

/-- Manifest entry with line short name 14. -/
def exEntry14 : LineManifestEntry := ⟨"r14", "14", "buss", "C", "D"⟩

/-- Manifest entry with line short name 4. -/
def exEntry4 : LineManifestEntry := ⟨"r4", "4", "buss", "E", "F"⟩

/-- First-truthy choice among candidate sources, formalizing the
first-non-empty-wins resolution order of the specification. -/
def firstTruthy : List (Option String) → Option String
  | [] => none
  | o :: rest => if truthy o then o else firstTruthy rest

/-- The spec example trip descriptor: trip id set, route id empty. -/
def exTrip : TripDescriptor := ⟨some "14010000123456789", some "", none⟩

/-- The spec example position: 59.33/18.06, bearing 90, speed 8 m/s. -/
def exPosition : Position := ⟨59.33, 18.06, some 90, some 8⟩

/-- The spec example vehicle descriptor with label 4711. -/
def exVehicleDesc : VehicleDescriptor := ⟨some "9031001001234567", some "4711"⟩

/-- The spec example decoded vehicle-position record. -/
def exVehiclePos : VehiclePosition :=
  ⟨some exTrip, some exVehicleDesc, some exPosition⟩

/-- The spec example feed entity. -/
def exEntity : FeedEntity := ⟨"ent-1", some exVehiclePos, none⟩

/-- A catalog whose trip map carries the spec example entry. -/
def exCatalog : CatalogState :=
  ⟨some [("14010000123456789", ⟨"9011001001200000", "Sollentuna"⟩)], none, []⟩

/-- The vehicle the resolver emits for the spec example. -/
def exResolved : SLVehicle :=
  mkLiveVehicle none exEntity exVehiclePos exPosition "14010000123456789"
    "9011001001200000" "Sollentuna"

/-- First non-empty, non-placeholder choice among candidate headsign
sources, defaulting to the unknown sentinel; this formalizes the
destination resolution order of the specification (the code's literal
sentinel is the Swedish word for unknown). -/
def firstNonPlaceholder : List (Option String) → String
  | [] => "Okänd"
  | o :: rest =>
    match o with
    | some s => if s ≠ "" ∧ s ≠ "Okänd" then s else firstNonPlaceholder rest
    | none => firstNonPlaceholder rest

/-- An active route whose trip-id set misses the live vehicle but whose
id equals the vehicle's line. -/
def exRoute : SLLineRoute :=
  ⟨"9011001001200000", "12", ["trip-a", "trip-b"], []⟩

/-- Trip descriptor of the example trip-update entity. -/
def exUpdTripDesc : TripDescriptor := ⟨some "trip-1", some "r1", some 0⟩

/-- Example stop-time update carrying both arrival and departure delay. -/
def exStopTimeUpdate : StopTimeUpdate :=
  ⟨some "stop-9", some ⟨some 120⟩, some ⟨some 60⟩⟩

/-- Example trip update with one stop-time update. -/
def exTripUpdate : TripUpdate := ⟨some exUpdTripDesc, [exStopTimeUpdate]⟩

/-- Example trip-update feed entity. -/
def exUpdateEntity : FeedEntity := ⟨"u1", none, some exTripUpdate⟩

/-- Trip descriptor of the example position entity joining trip-1. -/
def exTripDesc2 : TripDescriptor := ⟨some "trip-1", some "r1", none⟩

/-- Example position record. -/
def exPos2 : Position := ⟨1, 2, none, none⟩

/-- Example decoded vehicle position joining trip-1. -/
def exVehiclePos2 : VehiclePosition := ⟨some exTripDesc2, none, some exPos2⟩

/-- Example position feed entity joining trip-1. -/
def exPosEntity2 : FeedEntity := ⟨"p1", some exVehiclePos2, none⟩

/-- The join info stored for the example trip update. -/
def exInfo : TripUpdateInfo := ⟨some 120, some 0, some "r1", some "stop-9"⟩

/-- The vehicle resolved from the example position entity. -/
def exVeh2 : SLVehicle :=
  mkLiveVehicle (some exInfo) exPosEntity2 exVehiclePos2 exPos2
    "trip-1" "r1" "Okänd"

instance : IsTotal TrailPoint (fun a b => a.ts ≤ b.ts) :=
  ⟨fun a b => Int.le_total a.ts b.ts⟩

instance : IsTrans TrailPoint (fun a b => a.ts ≤ b.ts) :=
  ⟨fun _ _ _ h1 h2 => le_trans h1 h2⟩

/-- A vehicle snapshot posted to the ingest endpoint. -/
def exIngestVehicle : IngestVehicle := ⟨some "trip-z", "line-1", "veh-9", 10, 20⟩

/-! ### Theorems -/

theorem truthy_some (s : String) : truthy (some s) = true ↔ s ≠ "" := by
  simp [truthy]

theorem getTruthy_eq_some_iff {a : Option String} {s : String} :
    getTruthy a = some s ↔ a = some s ∧ s ≠ "" := by
  cases a with
  | none => simp [getTruthy, truthy]
  | some t =>
    by_cases h : t = "" <;> simp [getTruthy, truthy, h] <;> aesop

theorem getTruthy_of_truthy {a : Option String} (h : truthy a = true) :
    getTruthy a = a := by
  simp [getTruthy, h]

theorem getTruthy_of_falsy {a : Option String} (h : truthy a = false) :
    getTruthy a = none := by
  simp [getTruthy, h]

theorem truthy_getTruthy (a : Option String) :
    truthy (getTruthy a) = truthy a := by
  by_cases h : truthy a = true
  · rw [getTruthy_of_truthy h]
  · have hf : truthy a = false := by simpa using h
    rw [getTruthy_of_falsy hf, hf]
    rfl

theorem getTruthy_getTruthy (a : Option String) :
    getTruthy (getTruthy a) = getTruthy a := by
  by_cases h : truthy a = true
  · rw [getTruthy_of_truthy h]
    exact getTruthy_of_truthy h
  · have hf : truthy a = false := by simpa using h
    rw [getTruthy_of_falsy hf]
    rfl

theorem jsOrStr_of_truthy {a : Option String} (b : Option String)
    (h : truthy a = true) : jsOrStr a b = a := by
  simp [jsOrStr, h]

theorem jsOrStr_of_falsy {a : Option String} (b : Option String)
    (h : truthy a = false) : jsOrStr a b = b := by
  simp [jsOrStr, h]

/-! ### Shape of a successful per-entity resolution -/

theorem resolveEntity_some_elim {st : CatalogState}
    {im : List (String × TripUpdateInfo)} {e : FeedEntity} {veh : SLVehicle}
    (h : resolveEntity st im e = some veh) :
    ∃ v position trip tripId line,
      e.vehicle = some v ∧ v.position = some position ∧ v.trip = some trip ∧
      getTruthy trip.tripId = some tripId ∧
      getTruthy (resolvedRouteId st (im.lookup tripId) trip tripId) = some line ∧
      veh = mkLiveVehicle (im.lookup tripId) e v position tripId line
        (resolvedHeadsign st (im.lookup tripId) tripId
          (resolvedRouteId st (im.lookup tripId) trip tripId)
          (resolvedDirectionId (im.lookup tripId) trip)) := by
  cases hv : e.vehicle with
  | none => simp [resolveEntity, hv] at h
  | some v =>
    cases hp : v.position with
    | none => simp [resolveEntity, hv, hp] at h
    | some position =>
      cases ht : v.trip with
      | none => simp [resolveEntity, hv, hp, ht] at h
      | some trip =>
        cases hid : getTruthy trip.tripId with
        | none => simp [resolveEntity, hv, hp, ht, hid] at h
        | some tripId =>
          cases hr : getTruthy (resolvedRouteId st (im.lookup tripId) trip tripId) with
          | none => simp [resolveEntity, hv, hp, ht, hid, hr] at h
          | some line =>
            refine ⟨v, position, trip, tripId, line, rfl, hp, ht, hid, hr, ?_⟩
            simp [resolveEntity, hv, hp, ht, hid, hr] at h
            exact h.symm

theorem resolveEntity_some_intro {st : CatalogState}
    {im : List (String × TripUpdateInfo)} {e : FeedEntity}
    {v : VehiclePosition} {position : Position} {trip : TripDescriptor}
    {tripId line : String}
    (hv : e.vehicle = some v) (hp : v.position = some position)
    (ht : v.trip = some trip) (hid : getTruthy trip.tripId = some tripId)
    (hr : getTruthy (resolvedRouteId st (im.lookup tripId) trip tripId) = some line) :
    resolveEntity st im e =
      some (mkLiveVehicle (im.lookup tripId) e v position tripId line
        (resolvedHeadsign st (im.lookup tripId) tripId
          (resolvedRouteId st (im.lookup tripId) trip tripId)
          (resolvedDirectionId (im.lookup tripId) trip))) := by
  simp [resolveEntity, hv, hp, ht, hid, hr]

theorem mkLiveVehicle_fields (info : Option TripUpdateInfo) (e : FeedEntity)
    (v : VehiclePosition) (position : Position) (tripId line headsign : String) :
    (mkLiveVehicle info e v position tripId line headsign).tripId = tripId
    ∧ (mkLiveVehicle info e v position tripId line headsign).line = line
    ∧ (mkLiveVehicle info e v position tripId line headsign).destination = headsign
    ∧ (mkLiveVehicle info e v position tripId line headsign).speed
        = jsNumOr position.speed 0 * (3.6 : ℚ)
    ∧ (mkLiveVehicle info e v position tripId line headsign).delay
        = info.bind TripUpdateInfo.delay :=
  ⟨rfl, rfl, rfl, rfl, rfl⟩

theorem resolveEntity_nonempty_fields {st : CatalogState}
    {im : List (String × TripUpdateInfo)} {e : FeedEntity} {veh : SLVehicle}
    (h : resolveEntity st im e = some veh) :
    veh.tripId ≠ "" ∧ veh.line ≠ "" := by
  obtain ⟨v, position, trip, tripId, line, hv, hp, ht, hid, hr, heq⟩ :=
    resolveEntity_some_elim h
  have h1 := (getTruthy_eq_some_iff.mp hid).2
  have h2 := (getTruthy_eq_some_iff.mp hr).2
  subst heq
  exact ⟨h1, h2⟩

/-- C3: every decoded position entity without a vehicle record, position,
trip descriptor or (truthy) trip id is dropped by the resolver, and the
resolver's output never contains a vehicle with an empty trip id. -/
theorem resolver_drops_missing_tripId (st : CatalogState)
    (im : List (String × TripUpdateInfo)) :
    (∀ e : FeedEntity,
        (e.vehicle = none ∨ ∃ v, e.vehicle = some v ∧
          (v.position = none ∨ v.trip = none ∨
           ∃ trip, v.trip = some trip ∧ getTruthy trip.tripId = none)) →
        resolveEntity st im e = none)
    ∧ (∀ (es : List FeedEntity) (veh : SLVehicle),
        veh ∈ es.filterMap (resolveEntity st im) → veh.tripId ≠ "") := by
  constructor
  · rintro e (he | ⟨v, hv, (hp | ht | ⟨trip, ht, hid⟩)⟩)
    · simp [resolveEntity, he]
    · cases ht : v.trip <;> simp [resolveEntity, hv, hp, ht]
    · cases hp : v.position <;> simp [resolveEntity, hv, hp, ht]
    · cases hp : v.position <;> simp [resolveEntity, hv, hp, ht, hid]
  · intro es veh hm
    rw [List.mem_filterMap] at hm
    obtain ⟨e, -, he⟩ := hm
    exact (resolveEntity_nonempty_fields he).1

/-- C7: the emitted speed is the decoded speed (meters per second, with
an unspecified or zero value replaced by 0) multiplied by exactly 3.6;
in particular a decoded speed of 8 m/s is emitted as 28.8 km/h. -/
theorem speed_unit_conversion (st : CatalogState)
    (im : List (String × TripUpdateInfo)) (e : FeedEntity) (veh : SLVehicle)
    (h : resolveEntity st im e = some veh) :
    ∀ v position, e.vehicle = some v → v.position = some position →
      veh.speed = jsNumOr position.speed 0 * (3.6 : ℚ)
      ∧ (position.speed = none → veh.speed = 0)
      ∧ (position.speed = some 8 → veh.speed = (28.8 : ℚ)) := by
  obtain ⟨v, position, trip, tripId, line, hv, hp, ht, hid, hr, heq⟩ :=
    resolveEntity_some_elim h
  intro v2 position2 hv2 hp2
  rw [hv] at hv2
  injection hv2 with hv2
  subst hv2
  rw [hp] at hp2
  injection hp2 with hp2
  subst hp2
  subst heq
  refine ⟨rfl, ?_, ?_⟩
  · intro hs
    simp [mkLiveVehicle, jsNumOr, hs]
  · intro hs
    simp only [mkLiveVehicle, jsNumOr, hs]
    norm_num

/-- C10: reading history for an unknown trip id and reading while the
database access fails both produce a 200 response with an empty path
(and hence the same client-side result), never an error. -/
theorem history_read_never_errors (t : String) (docs : List TrailDoc)
    (ht : t ≠ "") (hmiss : ∀ d ∈ docs, d.tripId ≠ t) :
    historyHandler (Except.ok docs) (some t) = ⟨200, []⟩
    ∧ historyHandler (Except.error ()) (some t) = ⟨200, []⟩
    ∧ getVehicleHistory (Except.ok (historyHandler (Except.ok docs) (some t))) = []
    ∧ historyHandler (Except.ok docs) (some t)
        = historyHandler (Except.error ()) (some t) := by
  have hgt : getTruthy (some t) = some t :=
    getTruthy_of_truthy (by simpa [truthy] using ht)
  have hfind : docs.find? (fun d => d.tripId = t) = none := by
    rw [List.find?_eq_none]
    intro d hd
    simpa using hmiss d hd
  have h1 : historyHandler (Except.ok docs) (some t) = ⟨200, []⟩ := by
    simp [historyHandler, hgt, hfind]
  have h2 : historyHandler (Except.error ()) (some t) = ⟨200, []⟩ := by
    simp [historyHandler, hgt]
  refine ⟨h1, h2, ?_, by rw [h1, h2]⟩
  rw [h1]
  simp [getVehicleHistory]

/-- C6 counterexample: at a failed realtime fetch, getLiveVehicles
returns a successful empty list instead of signalling the failure, and
the poll tick replaces the displayed set ([prevVehicle] becomes []) and
reports LiveStatus.ok instead of flipping a degraded flag. -/
theorem fetch_failure_swallowed :
    getLiveVehicles emptyCatalog FetchPos.fetchFailed none none = []
    ∧ fetchLiveTick emptyCatalog FetchPos.fetchFailed none [prevVehicle]
        LiveStatus.ok = ([], LiveStatus.ok)
    ∧ ([] : List SLVehicle) ≠ [prevVehicle]
    ∧ LiveStatus.ok ≠ LiveStatus.error := by
  refine ⟨rfl, rfl, ?_, ?_⟩ <;> decide

/-- C6 amended: when the realtime fetch or the binary decode of a poll
tick fails, getLiveVehicles swallows the failure and returns an empty
list, and the tick stores that empty list with status ok; the previous
displayed set is not retained and no degraded flag flips. -/
theorem fetch_failure_returns_empty (st : CatalogState) (pos : FetchPos)
    (updates : Option (List FeedEntity)) (prev : List SLVehicle)
    (status : LiveStatus)
    (h : getLiveVehiclesAttempt st pos updates none = Except.error ()) :
    getLiveVehicles st pos updates none = []
    ∧ fetchLiveTick st pos updates prev status = ([], LiveStatus.ok) := by
  constructor
  · unfold getLiveVehicles
    rw [h]
  · unfold fetchLiveTick getLiveVehicles
    rw [h]

/-- Witness for the amended C6 at a concrete failing fetch. -/
theorem fetch_failure_returns_empty_witness :
    getLiveVehicles emptyCatalog (FetchPos.httpError 500) none none = []
    ∧ fetchLiveTick emptyCatalog (FetchPos.httpError 500) none [prevVehicle]
        LiveStatus.error = ([], LiveStatus.ok) :=
  fetch_failure_returns_empty emptyCatalog (FetchPos.httpError 500) none
    [prevVehicle] LiveStatus.error rfl

/-- C5: filtering by an active route keeps exactly the vehicles whose
trip id lies in the route's trip-id set; when no vehicle matches while
vehicles exist, the result is instead the vehicles whose line equals the
route id — in particular such a vehicle is returned via the fallback. -/
theorem filterByRoute_spec (all : List SLVehicle) (route : SLLineRoute)
    (v : SLVehicle) :
    ((∃ w ∈ all, w.tripId ∈ route.trip_ids) →
      (v ∈ filterByRoute all route ↔ v ∈ all ∧ v.tripId ∈ route.trip_ids))
    ∧ ((∀ w ∈ all, w.tripId ∉ route.trip_ids) → all ≠ [] →
      (v ∈ filterByRoute all route ↔ v ∈ all ∧ v.line = route.id))
    ∧ (v ∈ all → (∀ w ∈ all, w.tripId ∉ route.trip_ids) → v.line = route.id →
       v ∈ filterByRoute all route) := by
  have hcont : ∀ w : SLVehicle,
      route.trip_ids.contains w.tripId = true ↔ w.tripId ∈ route.trip_ids := by
    intro w
    simp [List.contains, List.elem_iff]
  have hmain : (∃ w ∈ all, w.tripId ∈ route.trip_ids) →
      (v ∈ filterByRoute all route ↔ v ∈ all ∧ v.tripId ∈ route.trip_ids) := by
    intro ⟨w, hw, hws⟩
    have hne : (all.filter (fun x => route.trip_ids.contains x.tripId)).length ≠ 0 := by
      intro hlen
      rw [List.length_eq_zero] at hlen
      rw [List.filter_eq_nil_iff] at hlen
      exact hlen w hw ((hcont w).mpr hws)
    unfold filterByRoute
    rw [if_neg (by intro hc; exact hne hc.1)]
    rw [List.mem_filter]
    constructor
    · rintro ⟨h1, h2⟩
      exact ⟨h1, (hcont v).mp h2⟩
    · rintro ⟨h1, h2⟩
      exact ⟨h1, (hcont v).mpr h2⟩
  have hfall : (∀ w ∈ all, w.tripId ∉ route.trip_ids) → all ≠ [] →
      (v ∈ filterByRoute all route ↔ v ∈ all ∧ v.line = route.id) := by
    intro hnone hne
    have hnil : all.filter (fun x => route.trip_ids.contains x.tripId) = [] := by
      rw [List.filter_eq_nil_iff]
      intro w hw hc
      exact hnone w hw ((hcont w).mp hc)
    have hpos : all.length > 0 := by
      cases all with
      | nil => exact absurd rfl hne
      | cons a l => simp
    unfold filterByRoute
    rw [if_pos (by rw [hnil]; exact ⟨rfl, hpos⟩)]
    rw [List.mem_filter]
    constructor
    · rintro ⟨h1, h2⟩
      exact ⟨h1, by simpa using h2⟩
    · rintro ⟨h1, h2⟩
      exact ⟨h1, by simpa using h2⟩
  refine ⟨hmain, hfall, ?_⟩
  intro hv hnone hline
  have hne : all ≠ [] := by
    intro hnil
    rw [hnil] at hv
    simp at hv
  exact ((hfall hnone hne).mpr ⟨hv, hline⟩)

theorem searchLinesLoop_length_le (query : String) :
    ∀ (l : List LineManifestEntry) (acc : List SearchResult),
      acc.length < 10 → (searchLinesLoop query l acc).length ≤ 10 := by
  intro l
  induction l with
  | nil =>
    intro acc h
    simpa [searchLinesLoop] using Nat.le_of_lt h
  | cons route rest ih =>
    intro acc h
    simp only [searchLinesLoop]
    by_cases hm : jsStartsWith (toLowerStr route.line) query = true
    · rw [if_pos hm]
      by_cases h10 : (acc ++ [mkLineResult route]).length < 10
      · rw [if_pos h10]
        exact ih _ h10
      · rw [if_neg h10]
        have hlen : (acc ++ [mkLineResult route]).length = acc.length + 1 := by
          simp
        omega
    · rw [if_neg hm]
      rw [if_pos h]
      exact ih _ h

theorem searchLinesLoop_mem (query : String) :
    ∀ (l : List LineManifestEntry) (acc : List SearchResult) (r : SearchResult),
      r ∈ searchLinesLoop query l acc →
      r ∈ acc ∨ ∃ e ∈ l, jsStartsWith (toLowerStr e.line) query = true
        ∧ r = mkLineResult e := by
  intro l
  induction l with
  | nil =>
    intro acc r h
    left
    simpa [searchLinesLoop] using h
  | cons route rest ih =>
    intro acc r h
    have hacc : ∀ x : SearchResult,
        x ∈ (if jsStartsWith (toLowerStr route.line) query = true then
              acc ++ [mkLineResult route] else acc) →
        x ∈ acc ∨ (jsStartsWith (toLowerStr route.line) query = true
          ∧ x = mkLineResult route) := by
      intro x hx
      by_cases hm : jsStartsWith (toLowerStr route.line) query = true
      · rw [if_pos hm] at hx
        rcases List.mem_append.mp hx with h1 | h1
        · exact Or.inl h1
        · simp at h1
          exact Or.inr ⟨hm, h1⟩
      · rw [if_neg hm] at hx
        exact Or.inl hx
    simp only [searchLinesLoop] at h
    by_cases h10 : ((if jsStartsWith (toLowerStr route.line) query = true then
        acc ++ [mkLineResult route] else acc)).length < 10
    · rw [if_pos h10] at h
      rcases ih _ r h with h1 | ⟨e, he, hm, hr⟩
      · rcases hacc r h1 with h2 | ⟨hm, hr⟩
        · exact Or.inl h2
        · exact Or.inr ⟨route, by simp, hm, hr⟩
      · exact Or.inr ⟨e, by simp [he], hm, hr⟩
    · rw [if_neg h10] at h
      rcases hacc r h with h2 | ⟨hm, hr⟩
      · exact Or.inl h2
      · exact Or.inr ⟨route, by simp, hm, hr⟩

/-- C9: the line search returns at most 10 results, every result comes
from a manifest entry whose lowercased line short name starts with the
lowercased query, and on the manifest with lines 40, 14, 4 the query 4
returns exactly the entries for lines 4 and 40 in index-scan order. -/
theorem searchLines_spec (routes : List LineManifestEntry) (query : String) :
    (searchLines routes (toLowerStr query)).length ≤ 10
    ∧ (∀ r ∈ searchLines routes (toLowerStr query),
        ∃ e ∈ routes,
          jsStartsWith (toLowerStr e.line) (toLowerStr query) = true
          ∧ r = mkLineResult e)
    ∧ searchLines [exEntry40, exEntry14, exEntry4] (toLowerStr "4")
        = [mkLineResult exEntry4, mkLineResult exEntry40] := by
  refine ⟨searchLinesLoop_length_le _ _ [] (by simp), ?_, by decide⟩
  intro r hr
  rcases searchLinesLoop_mem _ _ [] r hr with h1 | ⟨e, he, hm, hrr⟩
  · simp at h1
  · refine ⟨e, ?_, hm, hrr⟩
    unfold lineIndexScan at he
    exact (List.mem_insertionSort (fun a b => strLeB a.line b.line = true)).mp he

/-- Witness for C9 at the concrete three-line manifest and query 4. -/
theorem searchLines_spec_witness :
    ∃ e ∈ [exEntry40, exEntry14, exEntry4],
      jsStartsWith (toLowerStr e.line) (toLowerStr "4") = true
      ∧ mkLineResult exEntry4 = mkLineResult e :=
  (searchLines_spec [exEntry40, exEntry14, exEntry4] "4").2.1
    (mkLineResult exEntry4) (by decide)

theorem jsOrStr_none (x : Option String) : jsOrStr x none = getTruthy x := by
  by_cases h : truthy x = true
  · rw [jsOrStr_of_truthy _ h, getTruthy_of_truthy h]
  · have hf : truthy x = false := by simpa using h
    rw [jsOrStr_of_falsy _ hf, getTruthy_of_falsy hf]

theorem getTruthy_jsOrStr (x y : Option String) :
    getTruthy (jsOrStr x y) =
      if truthy x = true then getTruthy x else getTruthy y := by
  by_cases h : truthy x = true
  · rw [jsOrStr_of_truthy _ h, if_pos h]
  · have hf : truthy x = false := by simpa using h
    rw [jsOrStr_of_falsy _ hf, if_neg h]

theorem truthy_none : truthy none = false := rfl

theorem getTruthy_resolvedRouteId (st : CatalogState)
    (info : Option TripUpdateInfo) (trip : TripDescriptor) (tripId : String) :
    getTruthy (resolvedRouteId st info trip tripId) =
      firstTruthy [trip.routeId, info.bind TripUpdateInfo.routeId,
        (st.tripToRouteMap.bind (fun m => m.lookup tripId)).map TripMapEntry.r] := by
  have hstep : (match info with
      | some i => jsOrStr (getTruthy trip.routeId) i.routeId
      | none => getTruthy trip.routeId) =
      jsOrStr (getTruthy trip.routeId) (info.bind TripUpdateInfo.routeId) := by
    cases info with
    | none =>
      show getTruthy trip.routeId = jsOrStr (getTruthy trip.routeId) none
      rw [jsOrStr_none, getTruthy_getTruthy]
    | some i => rfl
  cases hL : st.tripToRouteMap.bind (fun m => m.lookup tripId) with
  | none =>
    have h1 : resolvedRouteId st info trip tripId
        = jsOrStr (getTruthy trip.routeId) (info.bind TripUpdateInfo.routeId) := by
      simp only [resolvedRouteId, hL, hstep]
    rw [h1, getTruthy_jsOrStr]
    by_cases hta : truthy trip.routeId = true
    · rw [if_pos (by rw [truthy_getTruthy]; exact hta), getTruthy_getTruthy,
        getTruthy_of_truthy hta]
      simp [firstTruthy, hta]
    · have hfa : truthy trip.routeId = false := by simpa using hta
      rw [if_neg (by rw [truthy_getTruthy]; exact hta)]
      by_cases htb : truthy (info.bind TripUpdateInfo.routeId) = true
      · rw [getTruthy_of_truthy htb]
        simp [firstTruthy, hfa, htb]
      · have hfb : truthy (info.bind TripUpdateInfo.routeId) = false := by
          simpa using htb
        rw [getTruthy_of_falsy hfb]
        simp [firstTruthy, hfa, hfb, truthy_none]
  | some me =>
    have h1 : resolvedRouteId st info trip tripId
        = jsOrStr (jsOrStr (getTruthy trip.routeId)
            (info.bind TripUpdateInfo.routeId)) (some me.r) := by
      simp only [resolvedRouteId, hL, hstep]
    rw [h1, getTruthy_jsOrStr, getTruthy_jsOrStr]
    by_cases hta : truthy trip.routeId = true
    · have hga : truthy (getTruthy trip.routeId) = true :=
        (truthy_getTruthy _).trans hta
      rw [if_pos (by rw [jsOrStr_of_truthy _ hga]; exact hga), if_pos hga,
        getTruthy_getTruthy, getTruthy_of_truthy hta]
      simp [firstTruthy, hta]
    · have hfa : truthy trip.routeId = false := by simpa using hta
      have hgaf : truthy (getTruthy trip.routeId) = false :=
        (truthy_getTruthy _).trans hfa
      by_cases htb : truthy (info.bind TripUpdateInfo.routeId) = true
      · rw [if_pos (by rw [jsOrStr_of_falsy _ hgaf]; exact htb),
          if_neg (by simp [hgaf]), getTruthy_of_truthy htb]
        simp [firstTruthy, hfa, htb]
      · have hfb : truthy (info.bind TripUpdateInfo.routeId) = false := by
          simpa using htb
        rw [if_neg (by rw [jsOrStr_of_falsy _ hgaf]; simp [hfb])]
        simp [firstTruthy, hfa, hfb, getTruthy]

/-- C1: for a position entity with a truthy trip id, the emitted line is
the first non-empty value among the position's own trip routeId, the
joined trip-update's routeId and the static trip-map routeId; when all
three are empty the entity is dropped, and every emitted vehicle (from
any entity list) has a non-empty line. -/
theorem routeId_resolution (st : CatalogState)
    (im : List (String × TripUpdateInfo)) (e : FeedEntity)
    (v : VehiclePosition) (trip : TripDescriptor) (position : Position)
    (tripId : String)
    (hv : e.vehicle = some v) (hp : v.position = some position)
    (ht : v.trip = some trip) (hid : getTruthy trip.tripId = some tripId) :
    (∀ veh : SLVehicle, resolveEntity st im e = some veh →
        some veh.line = firstTruthy [trip.routeId,
          (im.lookup tripId).bind TripUpdateInfo.routeId,
          (st.tripToRouteMap.bind (fun m => m.lookup tripId)).map TripMapEntry.r]
        ∧ veh.line ≠ "")
    ∧ (firstTruthy [trip.routeId,
          (im.lookup tripId).bind TripUpdateInfo.routeId,
          (st.tripToRouteMap.bind (fun m => m.lookup tripId)).map TripMapEntry.r]
            = none →
        resolveEntity st im e = none)
    ∧ (∀ (es : List FeedEntity) (veh : SLVehicle),
        veh ∈ es.filterMap (resolveEntity st im) → veh.line ≠ "") := by
  refine ⟨?_, ?_, ?_⟩
  · intro veh hres
    obtain ⟨v2, position2, trip2, tripId2, line, hv2, hp2, ht2, hid2, hr2, heq⟩ :=
      resolveEntity_some_elim hres
    rw [hv] at hv2
    injection hv2 with hv2
    subst hv2
    rw [ht] at ht2
    injection ht2 with ht2
    subst ht2
    rw [hid] at hid2
    injection hid2 with hid2
    subst hid2
    subst heq
    refine ⟨?_, (getTruthy_eq_some_iff.mp hr2).2⟩
    show some line = _
    rw [← getTruthy_resolvedRouteId st (im.lookup tripId) trip tripId, hr2]
  · intro hnone
    cases hr : getTruthy (resolvedRouteId st (im.lookup tripId) trip tripId) with
    | some line =>
      rw [getTruthy_resolvedRouteId, hnone] at hr
      cases hr
    | none =>
      simp [resolveEntity, hv, hp, ht, hid, hr]
  · intro es veh hm
    rw [List.mem_filterMap] at hm
    obtain ⟨e2, -, he2⟩ := hm
    exact (resolveEntity_nonempty_fields he2).2

/-- Witness for C1 at the spec example: the empty routeId of the trip
descriptor falls through to the static trip-map entry. -/
theorem routeId_resolution_witness :
    some exResolved.line = firstTruthy [exTrip.routeId,
      (([] : List (String × TripUpdateInfo)).lookup "14010000123456789").bind
        TripUpdateInfo.routeId,
      (exCatalog.tripToRouteMap.bind
        (fun m => m.lookup "14010000123456789")).map TripMapEntry.r]
    ∧ exResolved.line ≠ "" :=
  (routeId_resolution exCatalog [] exEntity exVehiclePos exTrip exPosition
    "14010000123456789" rfl rfl rfl (by decide)).1 exResolved (by rfl)

theorem headsignStages (A : Option TripMapEntry) (B C : Option String) :
    (let h1 := match A with
        | some mapEntry => if mapEntry.h ≠ "" then mapEntry.h else "Okänd"
        | none => "Okänd"
     let h2 := if h1 = "" ∨ h1 = "Okänd" then
        match B with
        | some fh => if fh ≠ "" then fh else h1
        | none => h1
       else h1
     let h3 := if h2 = "" ∨ h2 = "Okänd" then
        match C with
        | some sn => if sn ≠ "" then sn else h2
        | none => h2
       else h2
     h3) = firstNonPlaceholder [A.map TripMapEntry.h, B, C] := by
  rcases A with _ | me <;> rcases B with _ | b <;> rcases C with _ | c <;>
    simp only [firstNonPlaceholder, Option.map_none', Option.map_some'] <;>
    split_ifs <;> simp_all

theorem resolvedHeadsign_eq_chain (st : CatalogState)
    (info : Option TripUpdateInfo) (tripId : String) (routeId : Option String)
    (dir : Option Nat) (line : String) (hr : getTruthy routeId = some line) :
    resolvedHeadsign st info tripId routeId dir =
      firstNonPlaceholder
        [(st.tripToRouteMap.bind (fun m => m.lookup tripId)).map TripMapEntry.h,
         (match dir with
          | some d => (st.routeDirections.bind (fun rd => rd.lookup line)).bind
              (fun dirs => dirs.lookup (toString d))
          | none => none),
         (info.bind (fun i => getTruthy i.lastStopId)).bind
           (fun sid => st.stopsMap.lookup sid)] := by
  have hB : dirFallbackLookup routeId dir st.routeDirections =
      (match dir with
       | some d => (st.routeDirections.bind (fun rd => rd.lookup line)).bind
           (fun dirs => dirs.lookup (toString d))
       | none => none) := by
    unfold dirFallbackLookup
    rw [hr]
    rcases dir with _ | d <;> rcases st.routeDirections with _ | rd <;> rfl
  have key := headsignStages
    (st.tripToRouteMap.bind (fun m => m.lookup tripId))
    (dirFallbackLookup routeId dir st.routeDirections)
    ((info.bind (fun i => getTruthy i.lastStopId)).bind
      (fun sid => st.stopsMap.lookup sid))
  rw [← hB]
  unfold resolvedHeadsign
  exact key

/-- C2: the destination of every emitted vehicle is the first non-empty
non-placeholder value among the static trip-map headsign for its trip,
the route-direction table entry for its resolved route and direction,
and the stop name of the joined trip-update's last stop-time update,
defaulting to the unknown sentinel. -/
theorem destination_resolution (st : CatalogState)
    (im : List (String × TripUpdateInfo)) (e : FeedEntity) (veh : SLVehicle)
    (h : resolveEntity st im e = some veh) :
    ∀ v trip, e.vehicle = some v → v.trip = some trip →
      veh.destination = firstNonPlaceholder
        [(st.tripToRouteMap.bind (fun m => m.lookup veh.tripId)).map
            TripMapEntry.h,
         (match resolvedDirectionId (im.lookup veh.tripId) trip with
          | some d => (st.routeDirections.bind
              (fun rd => rd.lookup veh.line)).bind
              (fun dirs => dirs.lookup (toString d))
          | none => none),
         ((im.lookup veh.tripId).bind (fun i => getTruthy i.lastStopId)).bind
           (fun sid => st.stopsMap.lookup sid)] := by
  obtain ⟨v2, position2, trip2, tripId, line, hv2, hp2, ht2, hid2, hr2, heq⟩ :=
    resolveEntity_some_elim h
  intro v3 trip3 hv3 ht3
  rw [hv2] at hv3
  injection hv3 with hv3
  subst hv3
  rw [ht2] at ht3
  injection ht3 with ht3
  subst ht3
  subst heq
  show resolvedHeadsign st (im.lookup tripId) tripId
      (resolvedRouteId st (im.lookup tripId) trip2 tripId)
      (resolvedDirectionId (im.lookup tripId) trip2)
    = firstNonPlaceholder
        [(st.tripToRouteMap.bind (fun m => m.lookup tripId)).map
            TripMapEntry.h,
         (match resolvedDirectionId (im.lookup tripId) trip2 with
          | some d => (st.routeDirections.bind (fun rd => rd.lookup line)).bind
              (fun dirs => dirs.lookup (toString d))
          | none => none),
         ((im.lookup tripId).bind (fun i => getTruthy i.lastStopId)).bind
           (fun sid => st.stopsMap.lookup sid)]
  exact resolvedHeadsign_eq_chain st (im.lookup tripId) tripId _ _ line hr2

/-- Witness for C2 at the spec example: the trip-map headsign wins and
the destination is Sollentuna. -/
theorem destination_resolution_witness :
    exResolved.destination = firstNonPlaceholder
      [(exCatalog.tripToRouteMap.bind
          (fun m => m.lookup exResolved.tripId)).map TripMapEntry.h,
       (match resolvedDirectionId
            (([] : List (String × TripUpdateInfo)).lookup exResolved.tripId)
            exTrip with
        | some d => (exCatalog.routeDirections.bind
            (fun rd => rd.lookup exResolved.line)).bind
            (fun dirs => dirs.lookup (toString d))
        | none => none),
       ((([] : List (String × TripUpdateInfo)).lookup exResolved.tripId).bind
          (fun i => getTruthy i.lastStopId)).bind
          (fun sid => exCatalog.stopsMap.lookup sid)]
    ∧ exResolved.destination = "Sollentuna" :=
  ⟨destination_resolution exCatalog [] exEntity exResolved (by rfl)
      exVehiclePos exTrip rfl rfl, rfl⟩

/-- Witness for C3: an entity with no vehicle record is dropped. -/
theorem resolver_drops_missing_tripId_witness :
    resolveEntity exCatalog [] ⟨"e0", none, none⟩ = none :=
  (resolver_drops_missing_tripId exCatalog []).1 ⟨"e0", none, none⟩ (Or.inl rfl)

/-- Witness for C7 at the spec example: decoded speed 8 m/s is emitted
as 28.8 km/h. -/
theorem speed_unit_conversion_witness :
    resolveEntity exCatalog [] exEntity = some exResolved
    ∧ exResolved.speed = jsNumOr exPosition.speed 0 * (3.6 : ℚ)
    ∧ exResolved.speed = (28.8 : ℚ) := by
  have h := speed_unit_conversion exCatalog [] exEntity exResolved (by rfl)
    exVehiclePos exPosition rfl rfl
  exact ⟨by rfl, h.1, h.2.2 rfl⟩

/-- Witness for C10 on the empty store. -/
theorem history_read_never_errors_witness :
    historyHandler (Except.ok []) (some "trip-x") = ⟨200, []⟩
    ∧ historyHandler (Except.error ()) (some "trip-x") = ⟨200, []⟩
    ∧ getVehicleHistory
        (Except.ok (historyHandler (Except.ok []) (some "trip-x"))) = []
    ∧ historyHandler (Except.ok []) (some "trip-x")
        = historyHandler (Except.error ()) (some "trip-x") :=
  history_read_never_errors "trip-x" [] (by decide) (by simp)

/-- Witness for C5: the fallback returns the vehicle matched by line. -/
theorem filterByRoute_spec_witness :
    prevVehicle ∈ filterByRoute [prevVehicle] exRoute :=
  (filterByRoute_spec [prevVehicle] exRoute prevVehicle).2.2
    (by simp) (by decide) (by decide)

/-- C4: the emitted delay is the joined trip-update info's delay (absent
when no trip-update joins), and for a single joined trip-update entity
with at least one stop-time update it is the first update's delay,
arrival preferred over departure. -/
theorem delay_resolution (st : CatalogState) (us : List FeedEntity)
    (e : FeedEntity) (veh : SLVehicle)
    (h : resolveEntity st (buildTripInfoMap us) e = some veh) :
    veh.delay
      = ((buildTripInfoMap us).lookup veh.tripId).bind TripUpdateInfo.delay
    ∧ ((buildTripInfoMap us).lookup veh.tripId = none → veh.delay = none)
    ∧ (∀ (ent : FeedEntity) (tu : TripUpdate) (trip : TripDescriptor)
         (u : StopTimeUpdate) (rest : List StopTimeUpdate),
        us = [ent] → ent.tripUpdate = some tu → tu.trip = some trip →
        getTruthy trip.tripId = some veh.tripId →
        tu.stopTimeUpdate = u :: rest →
        veh.delay = (match u.arrival.bind StopTimeEvent.delay with
                     | some d => some d
                     | none => u.departure.bind StopTimeEvent.delay)) := by
  obtain ⟨v2, position2, trip2, tripId, line, hv2, hp2, ht2, hid2, hr2, heq⟩ :=
    resolveEntity_some_elim h
  subst heq
  have h1 : (mkLiveVehicle ((buildTripInfoMap us).lookup tripId) e v2 position2
      tripId line (resolvedHeadsign st ((buildTripInfoMap us).lookup tripId)
        tripId (resolvedRouteId st ((buildTripInfoMap us).lookup tripId)
          trip2 tripId)
        (resolvedDirectionId ((buildTripInfoMap us).lookup tripId) trip2))).delay
      = ((buildTripInfoMap us).lookup tripId).bind TripUpdateInfo.delay := rfl
  refine ⟨h1, ?_, ?_⟩
  · intro hnone
    rw [h1]
    rw [show (mkLiveVehicle ((buildTripInfoMap us).lookup tripId) e v2 position2
        tripId line _).tripId = tripId from rfl] at hnone
    rw [hnone]
    rfl
  · intro ent tu trip u rest hus htu htr hidt hstu
    have hidt2 : getTruthy trip.tripId = some tripId := hidt
    subst hus
    have hinfo : tripUpdateInfo tu
        = some (tripId, ⟨stopTimeDelay u, trip.directionId,
            getTruthy trip.routeId, lastStopIdOf tu.stopTimeUpdate⟩) := by
      simp [tripUpdateInfo, htr, hidt2, hstu]
    have hmap : buildTripInfoMap [ent]
        = [(tripId, ⟨stopTimeDelay u, trip.directionId,
            getTruthy trip.routeId, lastStopIdOf tu.stopTimeUpdate⟩)] := by
      simp [buildTripInfoMap, htu, hinfo, mapSet]
    rw [h1, hmap]
    simp [List.lookup, stopTimeDelay]

/-- Witness for C4: with both delays present the arrival delay (120)
wins over the departure delay (60). -/
theorem delay_resolution_witness :
    resolveEntity emptyCatalog (buildTripInfoMap [exUpdateEntity]) exPosEntity2
      = some exVeh2
    ∧ exVeh2.delay
        = (match exStopTimeUpdate.arrival.bind StopTimeEvent.delay with
           | some d => some d
           | none => exStopTimeUpdate.departure.bind StopTimeEvent.delay)
    ∧ exVeh2.delay = some 120 := by
  have h := delay_resolution emptyCatalog [exUpdateEntity] exPosEntity2 exVeh2
    (by rfl)
  exact ⟨by rfl,
    h.2.2 exUpdateEntity exTripUpdate exUpdTripDesc exStopTimeUpdate [] rfl rfl
      rfl (by decide) rfl, rfl⟩

theorem upsertOne_tripId_preserved (now expireAt : Int) (k : String)
    (v : IngestVehicle) (d : TrailDoc) :
    (if d.tripId = k then
        { d with line := v.line, vehicleId := v.id, expireAt := expireAt,
                 lastUpdate := now,
                 trail := d.trail ++ [⟨v.lat, v.lng, now⟩] }
      else d).tripId = d.tripId := by
  by_cases hdk : d.tripId = k
  · rw [if_pos hdk]
  · rw [if_neg hdk]

theorem upsertOne_preserves (now expireAt : Int) (docs : List TrailDoc)
    (k : String) (v : IngestVehicle) (t : String) (p : TrailPoint)
    (hex : ∃ d ∈ docs, d.tripId = t)
    (hall : ∀ d ∈ docs, d.tripId = t → p ∈ d.trail) :
    (∃ d ∈ upsertOne now expireAt docs k v, d.tripId = t)
    ∧ (∀ d ∈ upsertOne now expireAt docs k v, d.tripId = t → p ∈ d.trail) := by
  unfold upsertOne
  by_cases hany : docs.any (fun d => d.tripId = k) = true
  · rw [if_pos hany]
    constructor
    · obtain ⟨d, hd, hdt⟩ := hex
      exact ⟨_, List.mem_map_of_mem _ hd,
        (upsertOne_tripId_preserved now expireAt k v d).trans hdt⟩
    · intro d' hd' hdt'
      rw [List.mem_map] at hd'
      obtain ⟨d, hd, heq⟩ := hd'
      by_cases hdk : d.tripId = k
      · rw [if_pos hdk] at heq
        subst heq
        have hmem := hall d hd hdt'
        exact List.mem_append_left _ hmem
      · rw [if_neg hdk] at heq
        subst heq
        exact hall d hd hdt'
  · rw [if_neg hany]
    constructor
    · obtain ⟨d, hd, hdt⟩ := hex
      exact ⟨d, List.mem_append_left _ hd, hdt⟩
    · intro d' hd' hdt'
      rcases List.mem_append.mp hd' with h1 | h1
      · exact hall d' h1 hdt'
      · exfalso
        simp only [List.mem_singleton] at h1
        subst h1
        simp only [List.any_eq_true, not_exists, not_and] at hany
        simp at hdt'
        obtain ⟨d, hd, hdt⟩ := hex
        exact hany d hd (by simp [hdt, hdt'])

theorem upsertOne_establishes (now expireAt : Int) (docs : List TrailDoc)
    (t : String) (v : IngestVehicle) :
    (∃ d ∈ upsertOne now expireAt docs t v, d.tripId = t)
    ∧ (∀ d ∈ upsertOne now expireAt docs t v, d.tripId = t →
        TrailPoint.mk v.lat v.lng now ∈ d.trail) := by
  unfold upsertOne
  by_cases hany : docs.any (fun d => d.tripId = t) = true
  · rw [if_pos hany]
    constructor
    · rw [List.any_eq_true] at hany
      obtain ⟨d, hd, hdt⟩ := hany
      simp only [decide_eq_true_eq] at hdt
      exact ⟨_, List.mem_map_of_mem _ hd,
        (upsertOne_tripId_preserved now expireAt t v d).trans hdt⟩
    · intro d' hd' hdt'
      rw [List.mem_map] at hd'
      obtain ⟨d, hd, heq⟩ := hd'
      by_cases hdk : d.tripId = t
      · rw [if_pos hdk] at heq
        subst heq
        exact List.mem_append_right _ (List.mem_singleton_self _)
      · rw [if_neg hdk] at heq
        subst heq
        exact absurd hdt' hdk
  · rw [if_neg hany]
    constructor
    · exact ⟨_, List.mem_append_right _ (List.mem_singleton_self _), rfl⟩
    · intro d' hd' hdt'
      rcases List.mem_append.mp hd' with h1 | h1
      · exfalso
        simp only [List.any_eq_true, not_exists, not_and] at hany
        exact hany d' h1 (by simp [hdt'])
      · simp only [List.mem_singleton] at h1
        subst h1
        exact List.mem_singleton_self _

theorem ingest_fold_preserves (now expireAt : Int) (t : String) (p : TrailPoint) :
    ∀ (l : List IngestVehicle) (docs : List TrailDoc),
      (∃ d ∈ docs, d.tripId = t) →
      (∀ d ∈ docs, d.tripId = t → p ∈ d.trail) →
      (∃ d ∈ l.foldl (fun ds v => match v.tripId with
          | some k => upsertOne now expireAt ds k v
          | none => ds) docs, d.tripId = t)
      ∧ (∀ d ∈ l.foldl (fun ds v => match v.tripId with
          | some k => upsertOne now expireAt ds k v
          | none => ds) docs, d.tripId = t → p ∈ d.trail) := by
  intro l
  induction l with
  | nil =>
    intro docs hex hall
    exact ⟨hex, hall⟩
  | cons w rest ih =>
    intro docs hex hall
    rw [List.foldl_cons]
    cases hw : w.tripId with
    | none =>
      simp only [hw]
      exact ih docs hex hall
    | some k =>
      simp only [hw]
      obtain ⟨hex2, hall2⟩ := upsertOne_preserves now expireAt docs k w t p hex hall
      exact ih _ hex2 hall2

theorem ingest_fold_establishes (now expireAt : Int) :
    ∀ (l : List IngestVehicle) (docs : List TrailDoc) (v : IngestVehicle)
      (t : String), v ∈ l → v.tripId = some t →
      (∃ d ∈ l.foldl (fun ds v => match v.tripId with
          | some k => upsertOne now expireAt ds k v
          | none => ds) docs, d.tripId = t)
      ∧ (∀ d ∈ l.foldl (fun ds v => match v.tripId with
          | some k => upsertOne now expireAt ds k v
          | none => ds) docs, d.tripId = t →
          TrailPoint.mk v.lat v.lng now ∈ d.trail) := by
  intro l
  induction l with
  | nil =>
    intro docs v t hv
    exact absurd hv (List.not_mem_nil v)
  | cons w rest ih =>
    intro docs v t hv ht
    rw [List.foldl_cons]
    rcases List.mem_cons.mp hv with hvw | hvr
    · subst hvw
      simp only [ht]
      obtain ⟨hex, hall⟩ := upsertOne_establishes now expireAt docs t v
      exact ingest_fold_preserves now expireAt t _ rest _ hex hall
    · cases hw : w.tripId with
      | none =>
        simp only [hw]
        exact ih docs v t hvr ht
      | some k =>
        simp only [hw]
        exact ih _ v t hvr ht

theorem ingestVehicles_establishes (docs : List TrailDoc) (now : Int)
    (vehicles : List IngestVehicle) (v : IngestVehicle) (t : String)
    (hv : v ∈ vehicles) (ht : v.tripId = some t) (hne : t ≠ "") :
    (∃ d ∈ ingestVehicles docs now vehicles, d.tripId = t)
    ∧ (∀ d ∈ ingestVehicles docs now vehicles, d.tripId = t →
        TrailPoint.mk v.lat v.lng now ∈ d.trail) := by
  unfold ingestVehicles
  apply ingest_fold_establishes now (now + expireWindowMs) _ docs v t _ ht
  rw [List.mem_filter]
  refine ⟨hv, ?_⟩
  rw [ht]
  simpa [truthy] using hne

theorem ingestVehicles_preserves (docs : List TrailDoc) (now : Int)
    (vehicles : List IngestVehicle) (t : String) (p : TrailPoint)
    (hex : ∃ d ∈ docs, d.tripId = t)
    (hall : ∀ d ∈ docs, d.tripId = t → p ∈ d.trail) :
    (∃ d ∈ ingestVehicles docs now vehicles, d.tripId = t)
    ∧ (∀ d ∈ ingestVehicles docs now vehicles, d.tripId = t → p ∈ d.trail) := by
  unfold ingestVehicles
  exact ingest_fold_preserves now (now + expireWindowMs) t p _ docs hex hall

theorem applyIngests_preserves (t : String) (p : TrailPoint) :
    ∀ (batches : List (Int × List IngestVehicle)) (docs : List TrailDoc),
      (∃ d ∈ docs, d.tripId = t) →
      (∀ d ∈ docs, d.tripId = t → p ∈ d.trail) →
      (∃ d ∈ applyIngests docs batches, d.tripId = t)
      ∧ (∀ d ∈ applyIngests docs batches, d.tripId = t → p ∈ d.trail) := by
  intro batches
  induction batches with
  | nil =>
    intro docs hex hall
    exact ⟨hex, hall⟩
  | cons b rest ih =>
    intro docs hex hall
    unfold applyIngests
    rw [List.foldl_cons]
    obtain ⟨hex2, hall2⟩ := ingestVehicles_preserves docs b.1 b.2 t p hex hall
    exact ih _ hex2 hall2

/-- C8: a point ingested for trip id t is contained in any later history
read for t (also after further ingest batches), and the returned path is
sorted by timestamp ascending. -/
theorem history_store_roundtrip (docs : List TrailDoc) (now : Int)
    (vehicles : List IngestVehicle)
    (batches : List (Int × List IngestVehicle))
    (v : IngestVehicle) (t : String)
    (hv : v ∈ vehicles) (ht : v.tripId = some t) (hne : t ≠ "") :
    TrailPoint.mk v.lat v.lng now ∈
      (historyHandler (Except.ok
        (applyIngests (ingestVehicles docs now vehicles) batches))
        (some t)).path
    ∧ ((historyHandler (Except.ok
        (applyIngests (ingestVehicles docs now vehicles) batches))
        (some t)).path).Sorted (fun a b => a.ts ≤ b.ts) := by
  obtain ⟨hex1, hall1⟩ := ingestVehicles_establishes docs now vehicles v t hv ht hne
  obtain ⟨hex, hall⟩ := applyIngests_preserves t (TrailPoint.mk v.lat v.lng now)
    batches (ingestVehicles docs now vehicles) hex1 hall1
  have hgt : getTruthy (some t) = some t :=
    getTruthy_of_truthy (by simpa [truthy] using hne)
  have hsome : ((applyIngests (ingestVehicles docs now vehicles) batches).find?
      (fun d => d.tripId = t)).isSome = true := by
    rw [List.find?_isSome]
    obtain ⟨d, hd, hdt⟩ := hex
    exact ⟨d, hd, by simp [hdt]⟩
  obtain ⟨d', hfind⟩ := Option.isSome_iff_exists.mp hsome
  have hd'mem := List.mem_of_find?_eq_some hfind
  have hd't : d'.tripId = t := by
    have := List.find?_some hfind
    simpa using this
  have hpath : historyHandler (Except.ok
      (applyIngests (ingestVehicles docs now vehicles) batches)) (some t)
      = ⟨200, sortTrail d'.trail⟩ := by
    simp [historyHandler, hgt, hfind]
  rw [hpath]
  constructor
  · show TrailPoint.mk v.lat v.lng now ∈ sortTrail d'.trail
    unfold sortTrail
    rw [List.mem_insertionSort]
    exact hall d' hd'mem hd't
  · show (sortTrail d'.trail).Sorted (fun a b => a.ts ≤ b.ts)
    unfold sortTrail
    exact List.sorted_insertionSort _ _

/-- Witness for C8: one ingested snapshot is read back, sorted. -/
theorem history_store_roundtrip_witness :
    TrailPoint.mk exIngestVehicle.lat exIngestVehicle.lng 1000 ∈
      (historyHandler (Except.ok
        (applyIngests (ingestVehicles [] 1000 [exIngestVehicle]) []))
        (some "trip-z")).path
    ∧ ((historyHandler (Except.ok
        (applyIngests (ingestVehicles [] 1000 [exIngestVehicle]) []))
        (some "trip-z")).path).Sorted (fun a b => a.ts ≤ b.ts) :=
  history_store_roundtrip [] 1000 [exIngestVehicle] [] exIngestVehicle "trip-z"
    (List.mem_singleton_self _) rfl (by decide)
